import Mathlib

/-!
Verification of `typst_inkscape.py`: a shallow embedding of the transform-resolution and text-layout-extraction
core of the script, together with proofs about it.

Modelling conventions:

* Machine floats are modelled as exact rationals `ℚ` (the script's arithmetic
  on the inputs of interest is exact); the `numpy.sqrt` used for the vertical
  scale factor is modelled as `Real.sqrt`, so label records live in `ℝ`.
* A transform-attribute string is modelled as the list of function calls it
  contains, each a pair `(name, argument text)`; the regex
  `\s*(matrix|translate|scale)\s*\(([^)]+)\)` used by `parse_transform` keeps
  exactly the calls with a recognized name and non-empty argument text, in
  string order, which the embedding reproduces with a `List.filter`.
* Python exceptions (`ValueError` from `float()`, from tuple unpacking, and
  the explicit dimension error) are modelled with `Except PyError`.
-/

/-- Errors raised by the script: `floatConv s` models `ValueError` from
`float(s)`; `missingDims` models the explicit
`raise ValueError("SVG has no width/height or viewBox attribute.")`;
`viewBoxArity` models the `ValueError` from unpacking a `viewBox` that does
not hold exactly four numbers. -/
inductive PyError where
  | floatConv (s : String)
  | missingDims
  | viewBoxArity
  deriving DecidableEq, Repr

/-- The characters Python's `str.strip()` and the `\s` class treat as
whitespace (ASCII fragment, which is all the script's inputs use). -/
def isPySpace (c : Char) : Bool :=
  c = ' ' || c = '\t' || c = '\n' || c = '\r' || c = '\x0b' || c = '\x0c'

/-- Model of Python `str.strip()`: drop leading and trailing whitespace. -/
def pyStrip (s : String) : String :=
  String.mk (((s.toList.dropWhile isPySpace).reverse.dropWhile isPySpace).reverse)

/-- A separator character for `re.split(r'[,\s]+', ...)`. -/
def isSep (c : Char) : Bool :=
  c = ',' || isPySpace c

/-- Worker for `pySplitSeps`: `cur` is the current piece (reversed), `inSep`
records whether the previous character belonged to a separator run (so that a
whole run produces a single split point). -/
def splitRunsGo : List Char → Bool → List Char → List String
  | cur, _, [] => [String.mk cur.reverse]
  | cur, inSep, c :: cs =>
    if isSep c then
      if inSep then splitRunsGo cur true cs
      else String.mk cur.reverse :: splitRunsGo [] true cs
    else splitRunsGo (c :: cur) false cs

/-- Model of `re.split(r'[,\s]+', s)`: split at maximal runs of separators;
an empty piece survives only at the boundary of the string, exactly as
`re.split` behaves (`re.split` on `",1"` gives `['', '1']`, on `"1,,2"`
gives `['1', '2']`, on `""` gives `['']`). -/
def pySplitSeps (s : String) : List String :=
  splitRunsGo [] false s.toList

/-- Numeric value of a digit string read as a natural number. -/
def digitsVal (cs : List Char) : ℕ :=
  cs.foldl (fun acc c => acc * 10 + (c.toNat - '0'.toNat)) 0

/-- Model of Python `float(s)` restricted to plain decimal literals (optional
sign, integer part, optional fractional part) — the only numeral forms the
script's inputs use.  Returns `none` exactly when `float` raises
`ValueError` on such strings: no digits at all, stray characters, or a
malformed fraction. -/
def pyFloat? (s : String) : Option ℚ :=
  let cs := s.toList
  let signAndRest : ℚ × List Char :=
    match cs with
    | '+' :: r => (1, r)
    | '-' :: r => (-1, r)
    | _ => (1, cs)
  let sign := signAndRest.1
  let body := signAndRest.2
  let intPart := body.takeWhile Char.isDigit
  let rest := body.dropWhile Char.isDigit
  match rest with
  | [] =>
      if intPart.isEmpty then none
      else some (sign * (digitsVal intPart : ℚ))
  | '.' :: frac =>
      if frac.all Char.isDigit ∧ ¬(intPart.isEmpty ∧ frac.isEmpty) then
        some (sign * ((digitsVal intPart : ℚ) +
          (digitsVal frac : ℚ) / (10 : ℚ) ^ frac.length))
      else none
  | _ => none

/-- Python `float(s)` in the `Except` monad: `ValueError` becomes
`PyError.floatConv`. -/
def pyFloatE (s : String) : Except PyError ℚ :=
  match pyFloat? s with
  | some q => .ok q
  | none => .error (.floatConv s)

/-- The 3×3 homogeneous matrices the script stores in `numpy` arrays. -/
abbrev M3 : Type := Matrix (Fin 3) (Fin 3) ℚ

/-- The constant `PX_TO_PT = 72.0 / 96.0`. -/
def PX_TO_PT : ℚ := 72 / 96

/-- One function call occurring in a transform-attribute string: its name and
the raw text between its parentheses. -/
abbrev FuncCall : Type := String × String

/-- A transform function name kept by the regex alternation
`(matrix|translate|scale)`. -/
def recognizedFunc (f : String) : Bool :=
  f = "matrix" || f = "translate" || f = "scale"

/-- A call the regex `\s*(matrix|translate|scale)\s*\(([^)]+)\)` matches:
recognized name and non-empty argument text (`[^)]+` needs at least one
character). -/
def regexKeeps (fc : FuncCall) : Bool :=
  recognizedFunc fc.1 && fc.2 ≠ ""

/-- The argument list of one call:
`[float(arg) for arg in re.split(r'[,\s]+', args_str.strip())]`. -/
def floatArgs (argsStr : String) : Except PyError (List ℚ) :=
  (pySplitSeps (pyStrip argsStr)).mapM pyFloatE

/-- The matrix `m` built for one recognized call in the loop body of
`parse_transform` (lines 77–91 of the source): `matrix` with exactly six
arguments fills both upper rows; `translate` reads `tx` and an optional `ty`
defaulting to 0; `scale` reads `sx` and an optional `sy` defaulting to `sx`;
anything else (including `matrix` with the wrong number of arguments) leaves
`m = np.identity(3)`.  The `[]` branches of `translate`/`scale` are
unreachable: `re.split` always yields at least one piece, and `float` has
already succeeded on every piece. -/
def funcMatrix (func : String) (args : List ℚ) : M3 :=
  if func = "matrix" ∧ args.length = 6 then
    match args with
    | a :: b :: c :: d :: e :: f :: _ => !![a, c, e; b, d, f; 0, 0, 1]
    | _ => 1
  else if func = "translate" then
    match args with
    | tx :: rest => !![1, 0, tx; 0, 1, rest.headD 0; 0, 0, 1]
    | [] => 1
  else if func = "scale" then
    match args with
    | sx :: rest => !![sx, 0, 0; 0, rest.headD sx, 0; 0, 0, 1]
    | [] => 1
  else 1

/-- Model of `parse_transform` (source lines 61–95) on the list of function calls
appearing in the transform-attribute string, in string order.  `re.findall`
keeps the calls `regexKeeps` accepts; each kept call has its arguments
converted by `float` (which may raise) and its matrix left-multiplied onto
the accumulator: `total_transform = m @ total_transform`.  An absent or
empty attribute corresponds to the empty call list and yields the
identity. -/
def parse_transform (funcs : List FuncCall) : Except PyError M3 := do
  let kept := funcs.filter regexKeeps
  kept.foldlM (fun total fc => do
    let args ← floatArgs fc.2
    .ok (funcMatrix fc.1 args * total)) 1

/-- Model of `get_cumulative_transform` (source lines 97–116).  `ancestors` lists the
transform attributes of the element's ancestors in `iterancestors` order —
nearest parent first — already cut off before the root `<svg>` element (the
loop breaks there); `own` is the element's own transform attribute.  Each
ancestor matrix is left-multiplied (`transform = ancestor_transform @
transform`), then the element's own matrix is right-multiplied
(`transform = transform @ element_transform`). -/
def get_cumulative_transform (ancestors : List (List FuncCall))
    (own : List FuncCall) : Except PyError M3 := do
  let t ← ancestors.foldlM (fun t a => do
    let anc ← parse_transform a
    .ok (anc * t)) (1 : M3)
  let et ← parse_transform own
  .ok (t * et)

/-- Python truthiness of `root.get(...)`: present and non-empty. -/
def truthy : Option String → Bool
  | some s => s ≠ ""
  | none => false

/-- Model of `re.sub(r'[^\d.]', '', s)`: delete every character that is not a decimal
digit or a dot. -/
def stripNonNumeric (s : String) : String :=
  String.mk (s.toList.filter (fun c => c.isDigit || c = '.'))

/-- Python `str.split()` with no argument: split on whitespace runs,
discarding empty pieces. -/
def pySplitWs (s : String) : List String :=
  ((s.toList.splitOnP isPySpace).map String.mk).filter (fun p => p ≠ "")

/-- The `viewBox` fallback of `parse_svg_dimensions` (source lines 54–57):
whitespace-split the declaration, `float` every piece, unpack exactly four
values and scale the last two by `PX_TO_PT`. -/
def viewBoxDims (vb : String) : Except PyError (ℚ × ℚ) := do
  let vals ← (pySplitWs vb).mapM pyFloatE
  match vals with
  | [_, _, w_vb, h_vb] => .ok (w_vb * PX_TO_PT, h_vb * PX_TO_PT)
  | _ => .error .viewBoxArity

/-- Model of `parse_svg_dimensions` (source lines 40–59) on the root's `width`,
`height` and `viewBox` attributes.  If both size attributes are truthy,
every non-digit non-dot character is deleted and the rest is `float`ed and
scaled by `PX_TO_PT`; otherwise, a present `viewBox` is whitespace-split,
`float`ed, and must unpack into exactly four values, of which the last two
are scaled; otherwise the explicit `ValueError` is raised. -/
def parse_svg_dimensions (width? height? viewBox? : Option String) :
    Except PyError (ℚ × ℚ) :=
  if truthy width? ∧ truthy height? then do
    let w ← pyFloatE (stripNonNumeric (width?.getD ""))
    let h ← pyFloatE (stripNonNumeric (height?.getD ""))
    .ok (w * PX_TO_PT, h * PX_TO_PT)
  else
    match viewBox? with
    | some vb => viewBoxDims vb
    | none => .error .missingDims

/-- What `process_svg` reads off one `<text>` node (source lines 145–160):
the raw `x`/`y` attributes, the two regex captures from the inline `style`
string (`font-size:([\d.]+)px` and `text-anchor:(start|middle|end)`), the
raw `text-anchor` attribute, the concatenated `itertext()` content, and the
transform attributes of the node and of its ancestors (nearest parent first,
stopping before the root `<svg>`), each as its list of function calls. -/
structure TextElem where
  x? : Option String
  y? : Option String
  fontSizeStyle? : Option String
  anchorStyle? : Option String
  anchorAttr? : Option String
  content : String
  ancestors : List (List FuncCall)
  transform : List FuncCall

/-- The nominal font size in pixels (source lines 151–153): `float` the
`font-size:([\d.]+)px` capture when the token is present in the style
string, else the 16.0 px default. -/
def nominalFontSize (e : TextElem) : Except PyError ℚ :=
  match e.fontSizeStyle? with
  | some s => pyFloatE s
  | none => .ok (16 : ℚ)

/-- One extracted label (source lines 185–191). -/
structure Label where
  x_pt : ℝ
  y_pt : ℝ
  font_size_pt : ℝ
  content : String
  anchor : String

/-- The body of the text loop of `process_svg` (source lines 145–194) for one
`<text>` node: `float` the `x`/`y` attributes (default `'0'`), `float` the
`font-size` capture (default 16.0), resolve the anchor (style capture, else
attribute, else `'start'`), skip the node when its stripped content is empty
(this happens after the attribute parsing, before any transform work), then
resolve the cumulative transform, map `(x, y, 1)` through it, scale the font
size by `sqrt(T[1,0]² + T[1,1]²)`, convert to points and subtract the
`0.8 × font size` ascent estimate.  `none` means the node is skipped,
`some l` that label `l` is recorded and the node marked for removal. -/
noncomputable def processTextElem (e : TextElem) : Except PyError (Option Label) := do
  let x ← pyFloatE (e.x?.getD "0")
  let y ← pyFloatE (e.y?.getD "0")
  let font_size_px ← nominalFontSize e
  let text_anchor := e.anchorStyle?.getD (e.anchorAttr?.getD "start")
  let raw_text := pyStrip e.content
  if raw_text = "" then
    .ok none
  else do
    let T ← get_cumulative_transform e.ancestors e.transform
    let p := T.mulVec ![x, y, 1]
    let sy : ℝ := Real.sqrt (((T 1 0 : ℚ) : ℝ) ^ 2 + ((T 1 1 : ℚ) : ℝ) ^ 2)
    let final_font_size_px : ℝ := (font_size_px : ℝ) * sy
    let final_font_size_pt : ℝ := final_font_size_px * (PX_TO_PT : ℚ)
    let final_x_pt : ℝ := ((p 0 : ℚ) : ℝ) * (PX_TO_PT : ℚ)
    let final_y_pt : ℝ := ((p 1 : ℚ) : ℝ) * (PX_TO_PT : ℚ) - 0.8 * final_font_size_pt
    .ok (some { x_pt := final_x_pt, y_pt := final_y_pt,
                font_size_pt := final_font_size_pt,
                content := raw_text, anchor := text_anchor })

/-- The whole text loop of `process_svg` over the document-ordered `<text>`
nodes: returns the label list and the removal list (`text_nodes_to_remove`),
both in document order; the first exception aborts everything. -/
noncomputable def extractLabels : List TextElem → Except PyError (List Label × List TextElem)
  | [] => .ok ([], [])
  | e :: rest => do
    let r ← processTextElem e
    let (ls, rems) ← extractLabels rest
    match r with
    | none => .ok (ls, rems)
    | some l => .ok (l :: ls, e :: rems)

/-- The attributes of the root `<svg>` element plus its `<text>` descendants
in document order. -/
structure SvgDoc where
  width? : Option String
  height? : Option String
  viewBox? : Option String
  texts : List TextElem

/-- Model of `process_svg` (source lines 118–248) up to its computational content:
resolve dimensions, then extract all labels and the removal list.  File
parsing, node removal and file writing are mechanical glue on top of this
result; on any error the script aborts (`sys.exit(1)` for dimension errors,
an uncaught traceback inside the loop) before writing anything, so an
`.error` result means no output of any kind. -/
noncomputable def process_svg (doc : SvgDoc) :
    Except PyError ((ℚ × ℚ) × List Label × List TextElem) := do
  let dims ← parse_svg_dimensions doc.width? doc.height? doc.viewBox?
  let labelsAndRemovals ← extractLabels doc.texts
  .ok (dims, labelsAndRemovals)

/-- The matrix contributed by one kept transform call. -/
def callMatrix (fc : FuncCall) : Except PyError M3 :=
  (floatArgs fc.2).map (funcMatrix fc.1)

/-- The end-to-end scenario element: local `(10,20)`, ancestor
`translate(5,5)`, no own transform, 20 px font, middle anchor. -/
def labelElem : TextElem :=
  { x? := some "10", y? := some "20", fontSizeStyle? := some "20",
    anchorStyle? := some "middle", anchorAttr? := none, content := "Label",
    ancestors := [[("translate", "5,5")]], transform := [] }

/-- A text element with empty content but a malformed `x` attribute. -/
def badXElem : TextElem :=
  { x? := some "abc", y? := none, fontSizeStyle? := none,
    anchorStyle? := none, anchorAttr? := none, content := "",
    ancestors := [], transform := [] }

/-- A concrete whitespace-only text element. -/
def wsElem : TextElem :=
  { x? := some "3", y? := none, fontSizeStyle? := some "12",
    anchorStyle? := none, anchorAttr? := some "end", content := "   ",
    ancestors := [], transform := [] }

/-! Helper lemmas.

Small bridging facts used by several of the theorems below: evaluation of
`pyFloat?` on concrete numerals, `Except`-valued `mapM`/`foldlM`
computation rules, and closed forms for the two matrix folds. -/

theorem pyFloatE_ok {s : String} {q : ℚ} (h : pyFloat? s = some q) :
    pyFloatE s = .ok q := by
  simp [pyFloatE, h]

theorem pyFloatE_err {s : String} (h : pyFloat? s = none) :
    pyFloatE s = .error (.floatConv s) := by
  simp [pyFloatE, h]

theorem pyFloat_allDigits (s : String) (n : ℕ) (q : ℚ)
    (hshape : pyFloat? s = some (1 * ((digitsVal s.toList : ℕ) : ℚ)))
    (hval : digitsVal s.toList = n) (hq : ((n : ℕ) : ℚ) = q) :
    pyFloat? s = some q := by
  rw [hshape, hval, one_mul, hq]

theorem ev0 : pyFloat? "0" = some 0 := pyFloat_allDigits _ 0 0 rfl rfl (by norm_num)

theorem ev1 : pyFloat? "1" = some 1 := pyFloat_allDigits _ 1 1 rfl rfl (by norm_num)

theorem ev2 : pyFloat? "2" = some 2 := pyFloat_allDigits _ 2 2 rfl rfl (by norm_num)

theorem ev5 : pyFloat? "5" = some 5 := pyFloat_allDigits _ 5 5 rfl rfl (by norm_num)

theorem ev10 : pyFloat? "10" = some 10 := pyFloat_allDigits _ 10 10 rfl rfl (by norm_num)

theorem ev20 : pyFloat? "20" = some 20 := pyFloat_allDigits _ 20 20 rfl rfl (by norm_num)

theorem ev50 : pyFloat? "50" = some 50 := pyFloat_allDigits _ 50 50 rfl rfl (by norm_num)

theorem ev100 : pyFloat? "100" = some 100 := pyFloat_allDigits _ 100 100 rfl rfl (by norm_num)

theorem ev200 : pyFloat? "200" = some 200 := pyFloat_allDigits _ 200 200 rfl rfl (by norm_num)

theorem mapM_ok_nil {a : Type} {b : Type} (f : a → Except PyError b) :
    ([] : List a).mapM f = .ok [] := rfl

theorem mapM_ok_cons {a : Type} {b : Type} (f : a → Except PyError b) (x : a)
    (l : List a) (v : b) (vs : List b) (h1 : f x = .ok v)
    (h2 : l.mapM f = .ok vs) : (x :: l).mapM f = .ok (v :: vs) := by
  rw [List.mapM_cons, h1, h2]; rfl

theorem mapM_error_of_mem {a : Type} {b : Type} (f : a → Except PyError b) :
    ∀ (l : List a), (∃ x ∈ l, ∃ e, f x = .error e) →
      ∃ e, l.mapM f = .error e
  | [], h => by simp at h
  | x :: l, h => by
    rw [List.mapM_cons]
    cases hx : f x with
    | error e => exact ⟨e, rfl⟩
    | ok v =>
      obtain ⟨z, hz, e, hze⟩ := h
      have hzl : z ∈ l := by
        rcases List.mem_cons.mp hz with rfl | hzl
        · rw [hx] at hze; cases hze
        · exact hzl
      obtain ⟨e', he'⟩ := mapM_error_of_mem f l ⟨z, hzl, e, hze⟩
      refine ⟨e', ?_⟩
      rw [he']
      rfl

theorem floatArgs_pieces (s : String) (pieces : List String) (vs : List ℚ)
    (hp : pySplitSeps (pyStrip s) = pieces)
    (hm : pieces.mapM pyFloatE = .ok vs) : floatArgs s = .ok vs := by
  rw [floatArgs, hp, hm]

theorem fa_one_zero : floatArgs "1,0" = .ok [1, 0] :=
  floatArgs_pieces _ ["1", "0"] _ rfl
    (mapM_ok_cons _ _ _ _ _ (pyFloatE_ok ev1)
      (mapM_ok_cons _ _ _ _ _ (pyFloatE_ok ev0) (mapM_ok_nil _)))

theorem fa_zero_two : floatArgs "0,2" = .ok [0, 2] :=
  floatArgs_pieces _ ["0", "2"] _ rfl
    (mapM_ok_cons _ _ _ _ _ (pyFloatE_ok ev0)
      (mapM_ok_cons _ _ _ _ _ (pyFloatE_ok ev2) (mapM_ok_nil _)))

theorem fa_five_five : floatArgs "5,5" = .ok [5, 5] :=
  floatArgs_pieces _ ["5", "5"] _ rfl
    (mapM_ok_cons _ _ _ _ _ (pyFloatE_ok ev5)
      (mapM_ok_cons _ _ _ _ _ (pyFloatE_ok ev5) (mapM_ok_nil _)))

theorem fa_two : floatArgs "2" = .ok [2] :=
  floatArgs_pieces _ ["2"] _ rfl
    (mapM_ok_cons _ _ _ _ _ (pyFloatE_ok ev2) (mapM_ok_nil _))

theorem fa_two_two : floatArgs "2,2" = .ok [2, 2] :=
  floatArgs_pieces _ ["2", "2"] _ rfl
    (mapM_ok_cons _ _ _ _ _ (pyFloatE_ok ev2)
      (mapM_ok_cons _ _ _ _ _ (pyFloatE_ok ev2) (mapM_ok_nil _)))

theorem okBind {a b : Type} (v : a) (k : a → Except PyError b) :
    (Except.ok v >>= k) = k v := rfl

theorem errBind {a b : Type} (e : PyError) (k : a → Except PyError b) :
    ((Except.error e : Except PyError a) >>= k) = .error e := rfl

theorem mapOk {a b : Type} (g : a → b) (v : a) :
    (Except.ok v : Except PyError a).map g = .ok (g v) := rfl

theorem mapErr {a b : Type} (g : a → b) (e : PyError) :
    (Except.error e : Except PyError a).map g = .error e := rfl

theorem pureOk {a : Type} (v : a) : (pure v : Except PyError a) = .ok v := rfl

/-- The parser unfolded to its fold (definitional). -/
theorem parse_transform_eq_fold (funcs : List FuncCall) :
    parse_transform funcs = (funcs.filter regexKeeps).foldlM
      (fun total fc => do
        let args ← floatArgs fc.2
        Except.ok (funcMatrix fc.1 args * total)) 1 := rfl

/-- The loop body of `parse_transform`, written through `callMatrix`. -/
theorem parse_step_eq :
    (fun (total : M3) (fc : FuncCall) => do
      let args ← floatArgs fc.2
      Except.ok (funcMatrix fc.1 args * total)) =
    (fun (total : M3) (fc : FuncCall) => do
      let m ← callMatrix fc
      Except.ok (m * total)) := by
  funext total fc
  cases hfa : floatArgs fc.2 <;>
    simp [callMatrix, hfa, okBind, errBind, mapOk, mapErr]

/-- Closed form of a left fold that composes `Except`-produced matrices by
left multiplication: when every element succeeds, the result is the product
of the matrices in reversed order, applied to the start value. -/
theorem foldlM_mul_ok {α : Type} (g : α → Except PyError M3) :
    ∀ (l : List α) (Ms : List M3) (t : M3),
      l.mapM g = .ok Ms →
      l.foldlM (fun t x => do
        let m ← g x
        Except.ok (m * t)) t = .ok (Ms.reverse.prod * t)
  | [], Ms, t, h => by
    rw [mapM_ok_nil] at h
    injection h with h
    subst h
    simp [pureOk]
  | x :: l, Ms, t, h => by
    rw [List.mapM_cons] at h
    cases hx : g x with
    | error e => rw [hx, errBind] at h; cases h
    | ok M =>
      rw [hx, okBind] at h
      cases hm : l.mapM g with
      | error e => rw [hm, errBind] at h; cases h
      | ok Ms' =>
        rw [hm, okBind, pureOk] at h
        injection h with h
        subst h
        rw [List.foldlM_cons, hx, okBind, okBind,
          foldlM_mul_ok g l Ms' (M * t) hm]
        congr 1
        simp [mul_assoc]

/-- A left fold that composes `Except`-produced matrices fails whenever any
element of the list fails. -/
theorem foldlM_mul_error {α : Type} (g : α → Except PyError M3) :
    ∀ (l : List α) (t : M3) (x : α), x ∈ l → (∃ e, g x = .error e) →
      ∃ e, l.foldlM (fun t x => do
        let m ← g x
        Except.ok (m * t)) t = .error e
  | [], t, x, hx, _ => by simp at hx
  | y :: l, t, x, hx, hge => by
    rw [List.foldlM_cons]
    cases hy : g y with
    | error e => exact ⟨e, rfl⟩
    | ok M =>
      have hxl : x ∈ l := by
        rcases List.mem_cons.mp hx with rfl | hxl
        · obtain ⟨e, he⟩ := hge; rw [hy] at he; cases he
        · exact hxl
      obtain ⟨e, he⟩ := foldlM_mul_error g l (M * t) x hxl hge
      exact ⟨e, he⟩

/-- Behavior of `parse_transform` on a list of calls that are all kept by the regex and
all convert successfully: the result is the reversed product of the
per-call matrices. -/
theorem parse_transform_ok (funcs : List FuncCall) (Ms : List M3)
    (hkeep : ∀ fc ∈ funcs, regexKeeps fc = true)
    (hm : funcs.mapM callMatrix = .ok Ms) :
    parse_transform funcs = .ok Ms.reverse.prod := by
  rw [parse_transform_eq_fold, List.filter_eq_self.mpr hkeep, parse_step_eq,
    foldlM_mul_ok callMatrix funcs Ms 1 hm, mul_one]

/-- Closed form of `get_cumulative_transform` when every parse succeeds. -/
theorem get_cumulative_eq (ancestors : List (List FuncCall))
    (own : List FuncCall) (As : List M3) (A : M3)
    (hm : ancestors.mapM parse_transform = .ok As)
    (ho : parse_transform own = .ok A) :
    get_cumulative_transform ancestors own = .ok (As.reverse.prod * A) := by
  unfold get_cumulative_transform
  rw [foldlM_mul_ok parse_transform ancestors As 1 hm, okBind, ho, okBind,
    mul_one]

theorem callMatrix_ok (fc : FuncCall) (args : List ℚ)
    (ha : floatArgs fc.2 = .ok args) :
    callMatrix fc = .ok (funcMatrix fc.1 args) := by
  show (floatArgs fc.2).map (funcMatrix fc.1) = _
  rw [ha, mapOk]

theorem callMatrix_err (fc : FuncCall) (e : PyError)
    (ha : floatArgs fc.2 = .error e) : callMatrix fc = .error e := by
  show (floatArgs fc.2).map (funcMatrix fc.1) = _
  rw [ha, mapErr]

theorem parse_transform_nil : parse_transform [] = .ok 1 := rfl

/-- A one-call transform string parses to that call's matrix. -/
theorem parse_transform_single (name argsStr : String) (args : List ℚ)
    (hk : regexKeeps (name, argsStr) = true)
    (ha : floatArgs argsStr = .ok args) :
    parse_transform [(name, argsStr)] = .ok (funcMatrix name args) := by
  have hm : [(name, argsStr)].mapM callMatrix = .ok [funcMatrix name args] :=
    mapM_ok_cons _ _ _ _ _ (callMatrix_ok (name, argsStr) args ha) (mapM_ok_nil _)
  have h := parse_transform_ok [(name, argsStr)] [funcMatrix name args]
    (by intro fc hfc; rw [List.mem_singleton.mp hfc]; exact hk) hm
  simpa using h

theorem ev3 : pyFloat? "3" = some 3 := pyFloat_allDigits _ 3 3 rfl rfl (by norm_num)

theorem fa_one_two_three : floatArgs "1,2,3" = .ok [1, 2, 3] :=
  floatArgs_pieces _ ["1", "2", "3"] _ rfl
    (mapM_ok_cons _ _ _ _ _ (pyFloatE_ok ev1)
      (mapM_ok_cons _ _ _ _ _ (pyFloatE_ok ev2)
        (mapM_ok_cons _ _ _ _ _ (pyFloatE_ok ev3) (mapM_ok_nil _))))

theorem ptr_one_zero :
    parse_transform [("translate", "1,0")] = .ok !![1, 0, 1; 0, 1, 0; 0, 0, 1] := by
  rw [parse_transform_single "translate" "1,0" [1, 0] rfl fa_one_zero]; rfl

theorem ptr_zero_two :
    parse_transform [("translate", "0,2")] = .ok !![1, 0, 0; 0, 1, 2; 0, 0, 1] := by
  rw [parse_transform_single "translate" "0,2" [0, 2] rfl fa_zero_two]; rfl

theorem ptr_five_five :
    parse_transform [("translate", "5,5")] = .ok !![1, 0, 5; 0, 1, 5; 0, 0, 1] := by
  rw [parse_transform_single "translate" "5,5" [5, 5] rfl fa_five_five]; rfl

theorem psc_two :
    parse_transform [("scale", "2")] = .ok !![2, 0, 0; 0, 2, 0; 0, 0, 1] := by
  rw [parse_transform_single "scale" "2" [2] rfl fa_two]; rfl

theorem cm_tr_one_zero :
    callMatrix ("translate", "1,0") = .ok !![1, 0, 1; 0, 1, 0; 0, 0, 1] := by
  rw [callMatrix_ok ("translate", "1,0") [1, 0] fa_one_zero]; rfl

theorem cm_sc_two :
    callMatrix ("scale", "2") = .ok !![2, 0, 0; 0, 2, 0; 0, 0, 1] := by
  rw [callMatrix_ok ("scale", "2") [2] fa_two]; rfl

/-- The `N`-th power of the `translate(1,0)` matrix. -/
theorem translate_pow (N : ℕ) :
    (!![1, 0, 1; 0, 1, 0; 0, 0, 1] : M3) ^ N =
      !![1, 0, (N : ℚ); 0, 1, 0; 0, 0, 1] := by
  induction N with
  | zero =>
    rw [pow_zero, Matrix.one_fin_three]
    norm_num
  | succ n ih =>
    rw [pow_succ, ih, Matrix.mul_fin_three]
    ext i j
    fin_cases i <;> fin_cases j <;> simp <;> push_cast <;> ring

theorem mapM_parse_replicate (N : ℕ) :
    (List.replicate N [("translate", "1,0")]).mapM parse_transform =
      .ok (List.replicate N !![1, 0, 1; 0, 1, 0; 0, 0, 1]) := by
  induction N with
  | zero => exact mapM_ok_nil _
  | succ n ih =>
    simp only [List.replicate_succ]
    exact mapM_ok_cons _ _ _ _ _ ptr_one_zero ih

/-! Claim theorems. -/

/-- C1: the cumulative transform of a text element is the matrix product of
the ancestors' parsed transforms, outermost first, followed by the element's
own parsed transform (`ancestors` is nearest-parent-first, so the product is
over the reversed list); an element whose only ancestor is the root gets
exactly its own transform; and a chain of `N` nested `translate(1,0)`
ancestors maps the element-local point `(0,0)` to `(N,0)`. -/
theorem get_cumulative_transform_spec :
    (∀ (ancestors : List (List FuncCall)) (own : List FuncCall)
        (As : List M3) (A : M3),
        ancestors.mapM parse_transform = .ok As →
        parse_transform own = .ok A →
        get_cumulative_transform ancestors own = .ok (As.reverse.prod * A)) ∧
    (∀ (own : List FuncCall) (A : M3), parse_transform own = .ok A →
        get_cumulative_transform [] own = .ok A) ∧
    (∀ N : ℕ, ∃ T : M3,
        get_cumulative_transform
          (List.replicate N [("translate", "1,0")]) [] = .ok T ∧
        T.mulVec ![0, 0, 1] = ![(N : ℚ), 0, 1]) := by
  refine ⟨get_cumulative_eq, ?_, ?_⟩
  · intro own A ho
    have h := get_cumulative_eq [] own [] A (mapM_ok_nil _) ho
    simpa using h
  · intro N
    refine ⟨!![1, 0, (N : ℚ); 0, 1, 0; 0, 0, 1], ?_, ?_⟩
    · have h := get_cumulative_eq (List.replicate N [("translate", "1,0")]) []
        (List.replicate N !![1, 0, 1; 0, 1, 0; 0, 0, 1]) 1
        (mapM_parse_replicate N) parse_transform_nil
      rw [h, List.reverse_replicate, List.prod_replicate, translate_pow, mul_one]
    · funext i
      fin_cases i <;>
        simp [Matrix.mulVec, Matrix.dotProduct, Fin.sum_univ_three]

theorem get_cumulative_transform_spec_witness :
    ([[("translate", "1,0")], [("translate", "0,2")]] :
        List (List FuncCall)).mapM parse_transform =
      .ok [!![1, 0, 1; 0, 1, 0; 0, 0, 1], !![1, 0, 0; 0, 1, 2; 0, 0, 1]] ∧
    parse_transform [("scale", "2")] = .ok !![2, 0, 0; 0, 2, 0; 0, 0, 1] ∧
    get_cumulative_transform [[("translate", "1,0")], [("translate", "0,2")]]
        [("scale", "2")] =
      .ok (([!![1, 0, 1; 0, 1, 0; 0, 0, 1],
             (!![1, 0, 0; 0, 1, 2; 0, 0, 1] : M3)].reverse).prod *
           !![2, 0, 0; 0, 2, 0; 0, 0, 1]) :=
  have hm : ([[("translate", "1,0")], [("translate", "0,2")]] :
      List (List FuncCall)).mapM parse_transform =
      .ok [!![1, 0, 1; 0, 1, 0; 0, 0, 1], !![1, 0, 0; 0, 1, 2; 0, 0, 1]] :=
    mapM_ok_cons _ _ _ _ _ ptr_one_zero
      (mapM_ok_cons _ _ _ _ _ ptr_zero_two (mapM_ok_nil _))
  ⟨hm, psc_two, get_cumulative_transform_spec.1 _ _ _ _ hm psc_two⟩

/-- C2: over a list of recognized function calls the parser folds each new
matrix onto the accumulator by left multiplication, so the calls
`f1 f2 … fn` parse to `M(fn) · … · M(f2) · M(f1)` (the reversed-list
product); the empty call list — an empty or absent attribute — parses to
the identity. -/
theorem parse_transform_left_mul :
    (∀ (funcs : List FuncCall) (Ms : List M3),
        (∀ fc ∈ funcs, regexKeeps fc = true) →
        funcs.mapM callMatrix = .ok Ms →
        parse_transform funcs = .ok Ms.reverse.prod) ∧
    parse_transform [] = .ok 1 :=
  ⟨parse_transform_ok, parse_transform_nil⟩

theorem parse_transform_left_mul_witness :
    (∀ fc ∈ ([("translate", "1,0"), ("scale", "2")] : List FuncCall),
        regexKeeps fc = true) ∧
    ([("translate", "1,0"), ("scale", "2")] : List FuncCall).mapM callMatrix =
      .ok [!![1, 0, 1; 0, 1, 0; 0, 0, 1], !![2, 0, 0; 0, 2, 0; 0, 0, 1]] ∧
    parse_transform [("translate", "1,0"), ("scale", "2")] =
      .ok ([!![1, 0, 1; 0, 1, 0; 0, 0, 1],
            (!![2, 0, 0; 0, 2, 0; 0, 0, 1] : M3)].reverse).prod :=
  have hk : ∀ fc ∈ ([("translate", "1,0"), ("scale", "2")] : List FuncCall),
      regexKeeps fc = true := by decide
  have hm : ([("translate", "1,0"), ("scale", "2")] : List FuncCall).mapM
      callMatrix =
      .ok [!![1, 0, 1; 0, 1, 0; 0, 0, 1], !![2, 0, 0; 0, 2, 0; 0, 0, 1]] :=
    mapM_ok_cons _ _ _ _ _ cm_tr_one_zero
      (mapM_ok_cons _ _ _ _ _ cm_sc_two (mapM_ok_nil _))
  ⟨hk, hm, parse_transform_left_mul.1 _ _ hk hm⟩

/-- C7: `scale` with a single argument is the uniform scale — it parses to
exactly the same matrix as the two-argument form with the argument
repeated. -/
theorem scale_one_arg_uniform :
    ∀ (s1 s2 : String) (q : ℚ),
      floatArgs s1 = .ok [q] → floatArgs s2 = .ok [q, q] →
      parse_transform [("scale", s1)] = parse_transform [("scale", s2)] := by
  intro s1 s2 q h1 h2
  have hs1 : s1 ≠ "" := by
    rintro rfl
    rw [show floatArgs "" = .error (.floatConv "") from rfl] at h1
    cases h1
  have hs2 : s2 ≠ "" := by
    rintro rfl
    rw [show floatArgs "" = .error (.floatConv "") from rfl] at h2
    cases h2
  rw [parse_transform_single "scale" s1 [q]
      (by simp [regexKeeps, recognizedFunc, hs1]) h1,
    parse_transform_single "scale" s2 [q, q]
      (by simp [regexKeeps, recognizedFunc, hs2]) h2]
  rfl

theorem scale_one_arg_uniform_witness :
    floatArgs "2" = .ok [2] ∧ floatArgs "2,2" = .ok [2, 2] ∧
    parse_transform [("scale", "2")] = parse_transform [("scale", "2,2")] :=
  ⟨fa_two, fa_two_two, scale_one_arg_uniform "2" "2,2" 2 fa_two fa_two_two⟩

/-- C8: calls whose function name is not `matrix`, `translate` or `scale`
are silently dropped — parsing a call list gives the same result as parsing
only its recognized calls, and a list with no recognized call at all parses
to the identity without error. -/
theorem unrecognized_funcs_skipped :
    (∀ funcs : List FuncCall,
        parse_transform funcs =
          parse_transform (funcs.filter (fun fc => recognizedFunc fc.1))) ∧
    (∀ funcs : List FuncCall, (∀ fc ∈ funcs, recognizedFunc fc.1 = false) →
        parse_transform funcs = .ok 1) := by
  constructor
  · intro funcs
    rw [parse_transform_eq_fold, parse_transform_eq_fold, List.filter_filter]
    congr 1
    apply List.filter_congr
    intro fc _
    cases h : recognizedFunc fc.1 <;> simp [regexKeeps, h]
  · intro funcs hall
    rw [parse_transform_eq_fold,
      List.filter_eq_nil_iff.mpr
        (fun fc hfc => by simp [regexKeeps, hall fc hfc])]
    rfl

theorem unrecognized_funcs_skipped_witness :
    (∀ fc ∈ ([("rotate", "30"), ("skewX", "10")] : List FuncCall),
        recognizedFunc fc.1 = false) ∧
    parse_transform [("rotate", "30"), ("skewX", "10")] = .ok 1 :=
  have h : ∀ fc ∈ ([("rotate", "30"), ("skewX", "10")] : List FuncCall),
      recognizedFunc fc.1 = false := by decide
  ⟨h, unrecognized_funcs_skipped.2 _ h⟩

/-- C4 (counterexample): a recognized function with the wrong number of
arguments does NOT make the parser fail — `matrix(1,2,3)` parses without
error, silently contributing the identity matrix. -/
theorem wrong_arity_no_error :
    parse_transform [("matrix", "1,2,3")] = .ok 1 := by
  rw [parse_transform_single "matrix" "1,2,3" [1, 2, 3] rfl fa_one_two_three]
  rfl

/-- C4 (amended): a recognized function call containing a non-numeric
argument makes the whole parse fail; but a wrong number of arguments does
not — `matrix` with arity other than six silently contributes the
identity. -/
theorem bad_number_raises :
    (∀ (funcs : List FuncCall) (fc : FuncCall), fc ∈ funcs →
        regexKeeps fc = true →
        (∃ s ∈ pySplitSeps (pyStrip fc.2), pyFloat? s = none) →
        ∃ e, parse_transform funcs = .error e) ∧
    (∀ args : List ℚ, args.length ≠ 6 → funcMatrix "matrix" args = 1) := by
  constructor
  · intro funcs fc hmem hkeep hbad
    obtain ⟨s, hsmem, hsbad⟩ := hbad
    obtain ⟨e, he⟩ := mapM_error_of_mem pyFloatE (pySplitSeps (pyStrip fc.2))
      ⟨s, hsmem, .floatConv s, pyFloatE_err hsbad⟩
    have hcm : callMatrix fc = .error e := callMatrix_err fc e he
    obtain ⟨e', he'⟩ := foldlM_mul_error callMatrix (funcs.filter regexKeeps) 1
      fc (List.mem_filter.mpr ⟨hmem, hkeep⟩) ⟨e, hcm⟩
    exact ⟨e', by rw [parse_transform_eq_fold, parse_step_eq]; exact he'⟩
  · intro args h
    unfold funcMatrix
    rw [if_neg (by simp [h]), if_neg (by decide), if_neg (by decide)]

theorem bad_number_raises_witness :
    (("translate", "x,1") ∈ ([("translate", "x,1")] : List FuncCall)) ∧
    regexKeeps ("translate", "x,1") = true ∧
    ("x" ∈ pySplitSeps (pyStrip "x,1") ∧ pyFloat? "x" = none) ∧
    (∃ e, parse_transform [("translate", "x,1")] = .error e) :=
  have hmem : ("translate", "x,1") ∈ ([("translate", "x,1")] : List FuncCall) :=
    List.mem_singleton.mpr rfl
  have hx : "x" ∈ pySplitSeps (pyStrip "x,1") := by
    rw [show pySplitSeps (pyStrip "x,1") = ["x", "1"] from rfl]
    exact List.mem_cons_self _ _
  ⟨hmem, rfl, ⟨hx, rfl⟩,
    bad_number_raises.1 _ _ hmem rfl ⟨"x", hx, rfl⟩⟩

/-- Dimension resolution from truthy `width`/`height` attributes. -/
theorem dims_attrs :
    ∀ (w h : String) (vb : Option String) (wq hq : ℚ),
      w ≠ "" → h ≠ "" →
      pyFloat? (stripNonNumeric w) = some wq →
      pyFloat? (stripNonNumeric h) = some hq →
      parse_svg_dimensions (some w) (some h) vb =
        .ok (wq * PX_TO_PT, hq * PX_TO_PT) := by
  intro w h vb wq hq hw hh hwq hhq
  unfold parse_svg_dimensions
  rw [if_pos ⟨by simp [truthy, hw], by simp [truthy, hh]⟩]
  simp only [Option.getD_some]
  rw [pyFloatE_ok hwq, okBind, pyFloatE_ok hhq, okBind]

/-- Dimension resolution from the `viewBox` fallback. -/
theorem dims_viewBox :
    ∀ (w? h? : Option String) (vb : String) (a b wq hq : ℚ),
      ¬(truthy w? = true ∧ truthy h? = true) →
      (pySplitWs vb).mapM pyFloatE = .ok [a, b, wq, hq] →
      parse_svg_dimensions w? h? (some vb) =
        .ok (wq * PX_TO_PT, hq * PX_TO_PT) := by
  intro w? h? vb a b wq hq hc hm
  unfold parse_svg_dimensions
  rw [if_neg hc]
  show viewBoxDims vb = _
  unfold viewBoxDims
  rw [hm, okBind]

theorem vb_0_0_200_100 :
    (pySplitWs "0 0 200 100").mapM pyFloatE = .ok [0, 0, 200, 100] := by
  rw [show pySplitWs "0 0 200 100" = ["0", "0", "200", "100"] from rfl]
  exact mapM_ok_cons _ _ _ _ _ (pyFloatE_ok ev0)
    (mapM_ok_cons _ _ _ _ _ (pyFloatE_ok ev0)
      (mapM_ok_cons _ _ _ _ _ (pyFloatE_ok ev200)
        (mapM_ok_cons _ _ _ _ _ (pyFloatE_ok ev100) (mapM_ok_nil _))))

/-- C5: with both size attributes present, the digits-and-dot residue of
each is read as pixels and multiplied by exactly `PX_TO_PT = 72/96 = 0.75`;
`"100px"`/`"50px"` give exactly `(75.0, 37.5)` points; with an attribute
missing, a four-number `viewBox` has its width/height components converted
by the same ratio. -/
theorem svg_dimensions_px_to_pt :
    PX_TO_PT = 0.75 ∧
    (∀ (w h : String) (vb : Option String) (wq hq : ℚ),
        w ≠ "" → h ≠ "" →
        pyFloat? (stripNonNumeric w) = some wq →
        pyFloat? (stripNonNumeric h) = some hq →
        parse_svg_dimensions (some w) (some h) vb =
          .ok (wq * PX_TO_PT, hq * PX_TO_PT)) ∧
    parse_svg_dimensions (some "100px") (some "50px") none = .ok (75, 37.5) ∧
    (∀ (w? h? : Option String) (vb : String) (a b wq hq : ℚ),
        ¬(truthy w? = true ∧ truthy h? = true) →
        (pySplitWs vb).mapM pyFloatE = .ok [a, b, wq, hq] →
        parse_svg_dimensions w? h? (some vb) =
          .ok (wq * PX_TO_PT, hq * PX_TO_PT)) := by
  refine ⟨by norm_num [PX_TO_PT], dims_attrs, ?_, dims_viewBox⟩
  rw [dims_attrs "100px" "50px" none 100 50 (by decide) (by decide) ev100 ev50]
  norm_num [PX_TO_PT]

theorem svg_dimensions_px_to_pt_witness :
    (("100px" : String) ≠ "" ∧
      pyFloat? (stripNonNumeric "100px") = some 100 ∧
      parse_svg_dimensions (some "100px") (some "50px") (some "0 0 7 7") =
        .ok (100 * PX_TO_PT, 50 * PX_TO_PT)) ∧
    (¬(truthy (none : Option String) = true ∧ truthy (some "50px") = true) ∧
      parse_svg_dimensions none (some "50px") (some "0 0 200 100") =
        .ok (200 * PX_TO_PT, 100 * PX_TO_PT)) :=
  ⟨⟨by decide, ev100,
      svg_dimensions_px_to_pt.2.1 "100px" "50px" (some "0 0 7 7") 100 50
        (by decide) (by decide) ev100 ev50⟩,
    ⟨by simp [truthy],
      svg_dimensions_px_to_pt.2.2.2 none (some "50px") "0 0 200 100" 0 0 200 100
        (by simp [truthy]) vb_0_0_200_100⟩⟩

/-- C6 (counterexample): the Dimension Resolver can fail on a document that
does NOT lack both attributes — width `"px"` (present but with no digits)
fails with a float-conversion error, not with the missing-dimensions
error. -/
theorem dim_resolver_fails_with_attrs_present :
    parse_svg_dimensions (some "px") (some "50px") none =
      .error (.floatConv "") := rfl

/-- C6 (amended): with neither a truthy width-and-height attribute pair nor
a `viewBox`, the whole run fails with the missing-dimensions error and
produces nothing at all; this is however not the only way the resolver can
fail — present but malformed attribute values fail too, with a
float-conversion error. -/
theorem missing_dims_aborts :
    (∀ doc : SvgDoc, ¬(truthy doc.width? = true ∧ truthy doc.height? = true) →
        doc.viewBox? = none → process_svg doc = .error .missingDims) ∧
    parse_svg_dimensions (some "mm") (some "50px") none =
      .error (.floatConv "") := by
  constructor
  · intro doc hc hvb
    unfold process_svg
    have hd : parse_svg_dimensions doc.width? doc.height? doc.viewBox? =
        .error .missingDims := by
      unfold parse_svg_dimensions
      rw [if_neg hc, hvb]
    rw [hd, errBind]
  · rfl

theorem missing_dims_aborts_witness :
    ¬(truthy (none : Option String) = true ∧ truthy (some "50px") = true) ∧
    process_svg { width? := none, height? := some "50px", viewBox? := none,
                  texts := [] } = .error .missingDims :=
  have hc : ¬(truthy (none : Option String) = true ∧
      truthy (some "50px") = true) := by simp [truthy]
  ⟨hc, missing_dims_aborts.1 _ hc rfl⟩

/-- C10: the resolver deletes every character that is not a decimal digit
or a dot before parsing, so any two attribute pairs with the same residue
resolve identically — the unit suffix is never honored (`"100pt"` and
`"100mm"` both resolve as 100 pixels = 75 points) and a sign character is
dropped (`"-100"` also resolves to 75 points). -/
theorem dims_ignore_unit_suffix :
    (∀ (w1 h1 w2 h2 : String) (vb1 vb2 : Option String),
        w1 ≠ "" → h1 ≠ "" → w2 ≠ "" → h2 ≠ "" →
        stripNonNumeric w1 = stripNonNumeric w2 →
        stripNonNumeric h1 = stripNonNumeric h2 →
        parse_svg_dimensions (some w1) (some h1) vb1 =
          parse_svg_dimensions (some w2) (some h2) vb2) ∧
    parse_svg_dimensions (some "100pt") (some "50px") none = .ok (75, 37.5) ∧
    parse_svg_dimensions (some "100mm") (some "50px") none = .ok (75, 37.5) ∧
    parse_svg_dimensions (some "-100") (some "50px") none = .ok (75, 37.5) := by
  refine ⟨?_, ?_, ?_, ?_⟩
  · intro w1 h1 w2 h2 vb1 vb2 hw1 hh1 hw2 hh2 hws hhs
    unfold parse_svg_dimensions
    rw [if_pos ⟨by simp [truthy, hw1], by simp [truthy, hh1]⟩,
      if_pos ⟨by simp [truthy, hw2], by simp [truthy, hh2]⟩]
    simp only [Option.getD_some]
    rw [hws, hhs]
  · rw [dims_attrs "100pt" "50px" none 100 50 (by decide) (by decide) ev100
      ev50]
    norm_num [PX_TO_PT]
  · rw [dims_attrs "100mm" "50px" none 100 50 (by decide) (by decide) ev100
      ev50]
    norm_num [PX_TO_PT]
  · rw [dims_attrs "-100" "50px" none 100 50 (by decide) (by decide) ev100
      ev50]
    norm_num [PX_TO_PT]

theorem dims_ignore_unit_suffix_witness :
    (("100pt" : String) ≠ "" ∧ ("100mm" : String) ≠ "" ∧
      stripNonNumeric "100pt" = stripNonNumeric "100mm") ∧
    parse_svg_dimensions (some "100pt") (some "50px") none =
      parse_svg_dimensions (some "100mm") (some "50px") none :=
  ⟨⟨by decide, by decide, rfl⟩,
    dims_ignore_unit_suffix.1 "100pt" "50px" "100mm" "50px" none none
      (by decide) (by decide) (by decide) (by decide) rfl rfl⟩

theorem ev12 : pyFloat? "12" = some 12 := pyFloat_allDigits _ 12 12 rfl rfl (by norm_num)

/-- C3: for an extracted element whose attributes parse to `(x, y)` and
nominal size `s`, with cumulative transform `T`, the label is positioned at
`(T·(x,y,1))ₓ · 72/96` and `(T·(x,y,1))_y · 72/96 − 0.8 ·` (font size in
points), with font size `s · sqrt(T₁₀² + T₁₁²) · 72/96`. -/
theorem text_label_formula :
    ∀ (e : TextElem) (x y s : ℚ) (T : M3),
      pyFloatE (e.x?.getD "0") = .ok x →
      pyFloatE (e.y?.getD "0") = .ok y →
      nominalFontSize e = .ok s →
      pyStrip e.content ≠ "" →
      get_cumulative_transform e.ancestors e.transform = .ok T →
      processTextElem e = .ok (some
        { x_pt := ((T.mulVec ![x, y, 1] 0 : ℚ) : ℝ) * ((PX_TO_PT : ℚ) : ℝ)
          y_pt := ((T.mulVec ![x, y, 1] 1 : ℚ) : ℝ) * ((PX_TO_PT : ℚ) : ℝ) -
            0.8 * ((s : ℝ) *
              Real.sqrt (((T 1 0 : ℚ) : ℝ) ^ 2 + ((T 1 1 : ℚ) : ℝ) ^ 2) *
              ((PX_TO_PT : ℚ) : ℝ))
          font_size_pt := (s : ℝ) *
            Real.sqrt (((T 1 0 : ℚ) : ℝ) ^ 2 + ((T 1 1 : ℚ) : ℝ) ^ 2) *
            ((PX_TO_PT : ℚ) : ℝ)
          content := pyStrip e.content
          anchor := e.anchorStyle?.getD (e.anchorAttr?.getD "start") }) := by
  intro e x y s T hx hy hs hne hT
  simp only [processTextElem, hx, hy, hs, okBind, hT]
  rw [if_neg hne]

theorem mulVec_55 :
    (!![1, 0, 5; 0, 1, 5; 0, 0, 1] : M3).mulVec ![10, 20, 1] =
      ![15, 25, 1] := by
  funext i
  fin_cases i <;>
    simp [Matrix.mulVec, Matrix.dotProduct, Fin.sum_univ_three] <;> norm_num

theorem text_label_formula_witness :
    pyStrip "Label" ≠ "" ∧
    get_cumulative_transform [[("translate", "5,5")]] [] =
      .ok !![1, 0, 5; 0, 1, 5; 0, 0, 1] ∧
    processTextElem labelElem = .ok (some
      { x_pt := 11.25, y_pt := 6.75, font_size_pt := 15,
        content := "Label", anchor := "middle" }) := by
  have hT : get_cumulative_transform [[("translate", "5,5")]] [] =
      .ok !![1, 0, 5; 0, 1, 5; 0, 0, 1] := by
    have h := get_cumulative_eq [[("translate", "5,5")]] []
      [!![1, 0, 5; 0, 1, 5; 0, 0, 1]] 1
      (mapM_ok_cons _ _ _ _ _ ptr_five_five (mapM_ok_nil _))
      parse_transform_nil
    simpa using h
  refine ⟨by decide, hT, ?_⟩
  have h := text_label_formula labelElem 10 20 20
    !![1, 0, 5; 0, 1, 5; 0, 0, 1] (pyFloatE_ok ev10) (pyFloatE_ok ev20)
    (pyFloatE_ok ev20) (by decide) hT
  rw [h, mulVec_55,
    show (!![1, 0, 5; 0, 1, 5; 0, 0, 1] : M3) 1 0 = 0 from rfl,
    show (!![1, 0, 5; 0, 1, 5; 0, 0, 1] : M3) 1 1 = 1 from rfl]
  simp only [Except.ok.injEq, Option.some.injEq, Label.mk.injEq]
  refine ⟨?_, ?_, ?_, rfl, rfl⟩ <;>
    norm_num [Matrix.cons_val_zero, Matrix.cons_val_one, Matrix.head_cons,
      PX_TO_PT, Real.sqrt_one]

/-- C9 (counterexample): a text element whose content is empty can still
make the extractor raise — the `x` attribute is `float`ed before the
empty-content check, so `x="abc"` fails rather than being skipped. -/
theorem empty_text_attr_error :
    processTextElem badXElem = .error (.floatConv "abc") := rfl

/-- C9 (amended): provided its `x`, `y` and font-size values are
well-formed (those are parsed before the empty-content check, and their
errors propagate), a text element whose stripped content is empty yields no
label, raises no error, and is not added to the removal list — so it stays
in the cleaned document. -/
theorem empty_text_skipped :
    ∀ (e : TextElem) (x y s : ℚ),
      pyFloatE (e.x?.getD "0") = .ok x →
      pyFloatE (e.y?.getD "0") = .ok y →
      nominalFontSize e = .ok s →
      pyStrip e.content = "" →
      processTextElem e = .ok none ∧
      ∀ rest : List TextElem,
        extractLabels (e :: rest) = extractLabels rest := by
  intro e x y s hx hy hs hc
  have h1 : processTextElem e = .ok none := by
    simp only [processTextElem, hx, hy, hs, okBind, hc]
    simp
  refine ⟨h1, ?_⟩
  intro rest
  simp only [extractLabels]
  rw [h1, okBind]
  cases hrest : extractLabels rest with
  | error e2 => rw [errBind]
  | ok p => rw [okBind]

theorem empty_text_skipped_witness :
    pyStrip "   " = "" ∧
    processTextElem wsElem = .ok none ∧
    extractLabels [wsElem] = extractLabels [] :=
  have h := empty_text_skipped wsElem 3 0 12 (pyFloatE_ok ev3)
    (pyFloatE_ok ev0) (pyFloatE_ok ev12) rfl
  ⟨rfl, h.1, h.2 []⟩
